import Mathlib

/-!
Shallow embedding of the RAG orchestration pipeline in `new_rag_app.py`
(class `RAGPipeline`).  External HTTP backends (Ragie retrieval, SerpApi
web search, the Anthropic completion endpoint) are modelled as response
oracles passed in as arguments; each client function is the pure
computation the Python method performs on its backend response.  Python
exceptions become `Except` errors; Python string/list truthiness is made
explicit.  The URL parsing used by `upload_document` is a faithful model
of CPython `urllib.parse.urlparse` restricted to the behaviour it has on
ordinary strings (scheme split, netloc split with the mismatched-bracket
`ValueError`, fragment/query/params split).
-/

deriving instance DecidableEq for Except

namespace RagApp

/-- Python truthiness of an `Optional[str]`: `None` and `""` are falsy. -/
def pyTruthyStr : Option String → Bool
  | none => false
  | some s => !s.isEmpty

/-- The error kinds raised by the pipeline.  In the source each is a generic
`Exception` with a message built from the backend status code and reason
phrase (`RetrievalError`, `WebSearchError`, `CompletionError`,
`IngestionError` in the spec's vocabulary), or a `ValueError` escaping from
`urllib.parse.urlparse`. -/
inductive PipelineError where
  | retrievalError (status : Nat) (reason : String)
  | webSearchError (status : Nat) (reason : String)
  | ingestionError (status : Nat) (reason : String)
  | valueError (msg : String)
deriving DecidableEq, Repr

/-! ## Retrieval client (`RAGPipeline.retrieve_chunks`) -/

/-- One element of the retrieval backend's `scored_chunks` array; the code
reads only its `text` field. -/
structure ScoredChunk where
  text : String
deriving DecidableEq, Repr

/-- The retrieval backend's HTTP response: `ok`/status/reason of the
`requests` response plus the parsed JSON body, where a missing
`scored_chunks` key is `none` (the code uses `data.get("scored_chunks", [])`). -/
structure RetrievalResponse where
  ok : Bool
  status_code : Nat
  reason : String
  scored_chunks : Option (List ScoredChunk)
deriving DecidableEq, Repr

/-- `RAGPipeline.retrieve_chunks`: on a non-ok response raise; otherwise
return the `text` of each element of `scored_chunks` (default `[]`). -/
def retrieve_chunks (query scope : String) (resp : RetrievalResponse) :
    Except PipelineError (List String) :=
  if !resp.ok then
    Except.error (PipelineError.retrievalError resp.status_code resp.reason)
  else
    Except.ok ((resp.scored_chunks.getD []).map ScoredChunk.text)

/-! ## Web search client (`RAGPipeline.retrieve_web_results`) -/

/-- One element of SerpApi's `organic_results`; `title` and `snippet` may be
absent (the code uses `result.get("title", "")` / `result.get("snippet", "")`). -/
structure SerpResult where
  title : Option String
  snippet : Option String
deriving DecidableEq, Repr

/-- The web-search backend's HTTP response; a body without the
`organic_results` key is `none` (the code guards with
`if "organic_results" in data`). -/
structure WebSearchResponse where
  ok : Bool
  status_code : Nat
  reason : String
  organic_results : Option (List SerpResult)
deriving DecidableEq, Repr

/-- The formatting `f"**{title}**: {snippet}"` applied to each result, with
missing fields defaulted to the empty string. -/
def formatSerpResult (r : SerpResult) : String :=
  "**" ++ r.title.getD "" ++ "**: " ++ r.snippet.getD ""

/-- `RAGPipeline.retrieve_web_results`: returns the result together with the
number of network calls made to the web-search backend (0 or 1).  A falsy
`serpapi_api_key` short-circuits to `[]` before any network call; a non-ok
response raises; otherwise the first `num_results` elements of
`organic_results` (if the key is present) are formatted. -/
def retrieve_web_results (serpapi_api_key : Option String) (query : String)
    (num_results : Nat) (resp : WebSearchResponse) :
    Except PipelineError (List String) × Nat :=
  if !pyTruthyStr serpapi_api_key then
    (Except.ok [], 0)
  else if !resp.ok then
    (Except.error (PipelineError.webSearchError resp.status_code resp.reason), 1)
  else
    match resp.organic_results with
    | none => (Except.ok [], 1)
    | some rs => (Except.ok ((rs.take num_results).map formatSerpResult), 1)

/-! ## Prompt composer (`RAGPipeline.create_system_prompt`) -/

/-- The fixed text preceding `{context_info}` in the f-string template of
`create_system_prompt`. -/
def promptHeader : String :=
  "These are very important instructions: You are \"Ragie AI\", a professional but friendly AI chatbot assisting the user. Your task is to answer the user based on the information provided below. Answer informally, directly, and concisely, including all relevant details. Use Markdown for formatting (e.g., **bold**, *italic*, lists, etc.) and $$ for LaTeX where appropriate. Organize your answer into sections if needed. Do not include raw IDs or sensitive information.\n\nHere is the context available for you:\n"

/-- The fixed text following `{context_info}` in the template. -/
def promptFooter : String :=
  "\n\nIf the context is missing or insufficient, please indicate that the available information might be incomplete. END SYSTEM INSTRUCTIONS"

/-- The "Document Information" section built when `doc_chunks` is non-empty. -/
def docSection (doc_chunks : List String) : String :=
  "Document Information:\n===\n" ++ String.intercalate "\n\n" doc_chunks ++ "\n==="

/-- The "Web Search Results" section built when `web_results` is non-empty. -/
def webSection (web_results : List String) : String :=
  "Web Search Results:\n===\n" ++ String.intercalate "\n\n" web_results ++ "\n==="

/-- `RAGPipeline.create_system_prompt`: include each section only when its
source list is truthy (non-empty) — these are the `prompt_parts` — join the
included sections with a blank line into `context_info`, and splice the
result into the fixed template. -/
def create_system_prompt (doc_chunks web_results : List String) : String :=
  promptHeader ++
    String.intercalate "\n\n"
      ((if doc_chunks.isEmpty then [] else [docSection doc_chunks]) ++
       (if web_results.isEmpty then [] else [webSection web_results])) ++
    promptFooter

/-! ## Completion client (`RAGPipeline.generate_response`) -/

/-- One content segment of the completion backend's response. -/
structure ContentSegment where
  text : String
deriving DecidableEq, Repr

/-- The value `generate_response` evaluates to: the Python expression
`message.content[0].text if message.content and isinstance(message.content, list) else message.content`
yields a string when `content` is a non-empty list and the raw `content`
value (the empty list) otherwise. -/
inductive PyValue where
  | str (s : String)
  | segs (l : List ContentSegment)
deriving DecidableEq, Repr

/-- `RAGPipeline.generate_response` applied to a successful completion
backend response whose `content` field is `content`.  The prompt and query
are what the request carries; the returned value is computed from the
response as in the source. -/
def generate_response (system_prompt query : String)
    (content : List ContentSegment) : PyValue :=
  match content with
  | seg :: _ => PyValue.str seg.text
  | [] => PyValue.segs []

/-! ## Orchestrator (`RAGPipeline.process_query`) -/

/-- How many network calls `process_query` made to the web-search backend
and to the completion backend. -/
structure Trace where
  webCalls : Nat
  completionCalls : Nat
deriving DecidableEq, Repr

/-- The sentinel answer of the short-circuit branch. -/
def sentinelAnswer : String := "No relevant information found for your query."

/-- `RAGPipeline.process_query`: retrieve chunks, then (only when
`serpapi_api_key` is truthy) retrieve web results, short-circuit to the
sentinel when both are empty, otherwise compose the prompt and call the
completion backend.  Backend responses are passed as oracles; the `Trace`
records which backends were actually called. -/
def process_query (serpapi_api_key : Option String) (query scope : String)
    (rResp : RetrievalResponse) (wResp : WebSearchResponse)
    (cContent : List ContentSegment) :
    Except PipelineError PyValue × Trace :=
  match retrieve_chunks query scope rResp with
  | Except.error e => (Except.error e, ⟨0, 0⟩)
  | Except.ok doc_chunks =>
    match (if pyTruthyStr serpapi_api_key then
             retrieve_web_results serpapi_api_key query 3 wResp
           else (Except.ok [], 0)) with
    | (Except.error e, n) => (Except.error e, ⟨n, 0⟩)
    | (Except.ok web_results, n) =>
      if doc_chunks.isEmpty && web_results.isEmpty then
        (Except.ok (PyValue.str sentinelAnswer), ⟨n, 0⟩)
      else
        (Except.ok (generate_response (create_system_prompt doc_chunks web_results)
            query cContent), ⟨n, 1⟩)

/-! ## URL parsing (`urllib.parse.urlparse`, as used by `upload_document`)

A faithful model of CPython's `urlsplit`/`urlparse` on character lists:
strip tab/CR/LF, split a scheme when the text before the first `:` is a
non-empty run of scheme characters starting with an ASCII letter, split the
netloc after `//` up to the first of `/?#` (raising `ValueError` for a
mismatched `[`/`]` in the netloc), then split the fragment at the first `#`,
the query at the first `?`, and (for `urlparse`) the params at the first `;`
after the last `/` of the path. -/

/-- Characters allowed in a scheme after the first (`scheme_chars`). -/
def schemeChar (c : Char) : Bool :=
  c.isAlpha || c.isDigit || c = '+' || c = '-' || c = '.'

/-- The tab/CR/LF stripping CPython applies to the whole URL first. -/
def removeUnsafe (l : List Char) : List Char :=
  l.filter (fun c => !(c = '\t' || c = '\r' || c = '\n'))

/-- Split at the first occurrence of `d`: `some (before, after)` with the
delimiter removed, or `none` when `d` does not occur. -/
def splitFirst (d : Char) : List Char → Option (List Char × List Char)
  | [] => none
  | c :: cs =>
    if c = d then some ([], cs)
    else (splitFirst d cs).map (fun p => (c :: p.1, p.2))

/-- Take up to the first character in `delims`, returning (taken, rest with
the delimiter still attached); models `_splitnetloc`. -/
def takeUntilMem (delims : List Char) : List Char → List Char × List Char
  | [] => ([], [])
  | c :: cs =>
    if delims.contains c then ([], c :: cs)
    else
      let p := takeUntilMem delims cs
      (c :: p.1, p.2)

/-- Python `str.split(d)`: always non-empty, `"".split(d) == [""]`. -/
def splitOnChar (d : Char) : List Char → List (List Char)
  | [] => [[]]
  | c :: cs =>
    let r := splitOnChar d cs
    if c = d then [] :: r
    else
      match r with
      | [] => [[c]]
      | x :: xs => (c :: x) :: xs

/-- Python `s.split(d)[-1]` (the split list is never empty). -/
def lastSegment (d : Char) (l : List Char) : List Char :=
  (splitOnChar d l).getLastD []

/-- Scheme detection: `i = url.find(':')`; split only when `i > 0`, the
first character is an ASCII letter, and everything before the colon is a
scheme character; the scheme is lowercased. -/
def splitScheme (l : List Char) : List Char × List Char :=
  match splitFirst ':' l with
  | none => ([], l)
  | some p =>
    match p.1 with
    | [] => ([], l)
    | c :: cs =>
      if c.isAlpha && (c :: cs).all schemeChar then
        ((c :: cs).map Char.toLower, p.2)
      else ([], l)

/-- The result of `urlsplit` (no params field). -/
structure SplitResult where
  scheme : List Char
  netloc : List Char
  path : List Char
  query : List Char
  fragment : List Char
deriving DecidableEq, Repr

/-- CPython `urllib.parse.urlsplit` with `allow_fragments=True`; the only
raising branch is the mismatched-bracket netloc check
(`raise ValueError("Invalid IPv6 URL")`). -/
def urlsplit (url0 : List Char) : Except String SplitResult := do
  let url1 := removeUnsafe url0
  let (scheme, url2) := splitScheme url1
  let (netloc, url3) ←
    if url2.take 2 = ['/', '/'] then
      let p := takeUntilMem ['/', '?', '#'] (url2.drop 2)
      if (p.1.contains '[' && !p.1.contains ']') ||
         (p.1.contains ']' && !p.1.contains '[') then
        Except.error "Invalid IPv6 URL"
      else pure (p.1, p.2)
    else pure ([], url2)
  let (url4, fragment) :=
    match splitFirst '#' url3 with
    | some p => p
    | none => (url3, [])
  let (path, query) :=
    match splitFirst '?' url4 with
    | some p => p
    | none => (url4, [])
  pure ⟨scheme, netloc, path, query, fragment⟩

/-- CPython `_splitparams`: split the params off the last path segment
(only called when `;` occurs in the path). -/
def splitparams (url : List Char) : List Char × List Char :=
  if url.contains '/' then
    match splitFirst ';' ((url.reverse.takeWhile (fun c => c ≠ '/')).reverse) with
    | none => (url, [])
    | some p =>
      ((url.reverse.dropWhile (fun c => c ≠ '/')).reverse ++ p.1, p.2)
  else
    match splitFirst ';' url with
    | none => (url, [])
    | some p => p

/-- The result of `urlparse` (path with params split off). -/
structure ParseResult where
  scheme : List Char
  netloc : List Char
  path : List Char
  params : List Char
  query : List Char
  fragment : List Char
deriving DecidableEq, Repr

/-- CPython `urllib.parse.urlparse`. -/
def urlparse (url : List Char) : Except String ParseResult := do
  let s ← urlsplit url
  let (path, params) :=
    if s.path.contains ';' then splitparams s.path else (s.path, [])
  pure ⟨s.scheme, s.netloc, path, params, s.query, s.fragment⟩

/-! ## Document ingestion (`RAGPipeline.upload_document`) -/

/-- The JSON payload `upload_document` submits to the upload endpoint. -/
structure UploadPayload where
  mode : String
  name : String
  url : String
deriving DecidableEq, Repr

/-- `RAGPipeline.upload_document` up to the outbound request: when `name`
is falsy (absent or the empty string) it is derived as
`urlparse(url).path.split('/')[-1] or "document"`; a `ValueError` raised by
`urlparse` propagates.  The returned payload is the request body
`{mode, name, url}`. -/
def upload_document (url : String) (name : Option String) (mode : String) :
    Except PipelineError UploadPayload :=
  if pyTruthyStr name then
    Except.ok ⟨mode, name.getD "", url⟩
  else
    match urlparse url.data with
    | Except.error e => Except.error (PipelineError.valueError e)
    | Except.ok pr =>
      let seg := lastSegment '/' pr.path
      Except.ok ⟨mode, if seg.isEmpty then "document" else String.mk seg, url⟩

/-- Modelled from the spec (claim C7's wording, for comparison with the
code): the derived name is the final path segment of the URL, with the
fixed default `"document"` when that segment is empty **or the URL cannot
be parsed**. -/
def specDerivedName (url : String) : String :=
  match urlparse url.data with
  | Except.error _ => "document"
  | Except.ok pr =>
    let seg := lastSegment '/' pr.path
    if seg.isEmpty then "document" else String.mk seg

end RagApp


namespace RagApp

/-! ## Substring occurrence -/

/-- Boolean prefix test on character lists. -/
def isPrefixCh : List Char → List Char → Bool
  | [], _ => true
  | _ :: _, [] => false
  | a :: as, b :: bs => a = b && isPrefixCh as bs

/-- Boolean contiguous-substring test. -/
def containsSub (needle hay : List Char) : Bool :=
  match hay with
  | [] => isPrefixCh needle []
  | c :: t => isPrefixCh needle (c :: t) || containsSub needle t

/-- `needle` occurs contiguously in `hay`. -/
def ContainsStr (needle hay : String) : Prop :=
  containsSub needle.data hay.data = true

instance decidableContainsStr (n h : String) : Decidable (ContainsStr n h) :=
  inferInstanceAs (Decidable (containsSub n.data h.data = true))

theorem isPrefixCh_self_append (n b : List Char) : isPrefixCh n (n ++ b) = true := by
  induction n with
  | nil => rfl
  | cons a as ih => simp [isPrefixCh, ih]

theorem containsSub_append_right (n h₂ : List Char) (hc : containsSub n h₂ = true)
    (a : List Char) : containsSub n (a ++ h₂) = true := by
  induction a with
  | nil => exact hc
  | cons c cs ih => simp [containsSub, ih]

theorem containsSub_self_append (n b : List Char) : containsSub n (n ++ b) = true := by
  cases n with
  | nil => cases b <;> simp [containsSub, isPrefixCh]
  | cons c cs =>
    have := isPrefixCh_self_append (c :: cs) b
    simp only [List.cons_append] at this
    simp [containsSub, this]

theorem containsSub_sandwich (a n b : List Char) :
    containsSub n (a ++ (n ++ b)) = true :=
  containsSub_append_right n (n ++ b) (containsSub_self_append n b) a

end RagApp

namespace RagApp

/-! ## Claim theorems -/

/-- C1: for every query and scope, if the document-retrieval call returns an
empty sequence of chunks and the web-search step yields an empty sequence
(whether skipped for lack of a credential or attempted and empty),
`process_query` returns the fixed sentinel answer and performs zero calls to
the completion client. -/
theorem claim_C1_short_circuit (serpapi_api_key : Option String)
    (query scope : String) (rResp : RetrievalResponse) (wResp : WebSearchResponse)
    (cContent : List ContentSegment)
    (hr : retrieve_chunks query scope rResp = Except.ok [])
    (hw : (retrieve_web_results serpapi_api_key query 3 wResp).1 = Except.ok []) :
    (process_query serpapi_api_key query scope rResp wResp cContent).1 =
        Except.ok (PyValue.str sentinelAnswer) ∧
    (process_query serpapi_api_key query scope rResp wResp cContent).2.completionCalls = 0 := by
  unfold process_query
  rw [hr]
  by_cases hk : pyTruthyStr serpapi_api_key = true
  · rw [if_pos hk]
    rcases hp : retrieve_web_results serpapi_api_key query 3 wResp with ⟨res, n⟩
    rw [hp] at hw
    simp only at hw
    subst hw
    simp
  · rw [if_neg hk]
    simp

/-- C1 witness: a concrete ok-but-empty retrieval response together with an
absent web-search credential hit the short-circuit branch. -/
theorem claim_C1_short_circuit_witness :
    retrieve_chunks "What is photosynthesis?" "tutorial" ⟨true, 200, "OK", some []⟩ =
        Except.ok [] ∧
    (retrieve_web_results none "What is photosynthesis?" 3 ⟨true, 200, "OK", none⟩).1 =
        Except.ok [] ∧
    ((process_query none "What is photosynthesis?" "tutorial" ⟨true, 200, "OK", some []⟩
          ⟨true, 200, "OK", none⟩ []).1 = Except.ok (PyValue.str sentinelAnswer) ∧
      (process_query none "What is photosynthesis?" "tutorial" ⟨true, 200, "OK", some []⟩
          ⟨true, 200, "OK", none⟩ []).2.completionCalls = 0) :=
  ⟨by decide, by decide,
    claim_C1_short_circuit none "What is photosynthesis?" "tutorial" _ _ []
      (by decide) (by decide)⟩

/-- C2: on a non-success retrieval response, `retrieve_chunks` fails with the
retrieval error carrying the backend's status and reason (no partial list),
and `process_query` propagates that error having made zero web-search calls
and zero completion calls. -/
theorem claim_C2_retrieval_error (serpapi_api_key : Option String)
    (query scope : String) (rResp : RetrievalResponse) (wResp : WebSearchResponse)
    (cContent : List ContentSegment) (h : rResp.ok = false) :
    retrieve_chunks query scope rResp =
        Except.error (PipelineError.retrievalError rResp.status_code rResp.reason) ∧
    process_query serpapi_api_key query scope rResp wResp cContent =
        (Except.error (PipelineError.retrievalError rResp.status_code rResp.reason),
         ⟨0, 0⟩) := by
  have hrc : retrieve_chunks query scope rResp =
      Except.error (PipelineError.retrievalError rResp.status_code rResp.reason) := by
    unfold retrieve_chunks
    rw [h]
    rfl
  refine ⟨hrc, ?_⟩
  unfold process_query
  rw [hrc]

/-- C2 witness: the spec's HTTP 500 scenario. -/
theorem claim_C2_retrieval_error_witness :
    (⟨false, 500, "Internal Server Error", none⟩ : RetrievalResponse).ok = false ∧
    (retrieve_chunks "q" "tutorial" ⟨false, 500, "Internal Server Error", none⟩ =
        Except.error (PipelineError.retrievalError 500 "Internal Server Error") ∧
      process_query (some "serpkey") "q" "tutorial"
          ⟨false, 500, "Internal Server Error", none⟩
          ⟨true, 200, "OK", some [⟨some "t", some "s"⟩]⟩ [⟨"answer"⟩] =
        (Except.error (PipelineError.retrievalError 500 "Internal Server Error"),
         ⟨0, 0⟩)) :=
  ⟨rfl, claim_C2_retrieval_error (some "serpkey") "q" "tutorial" _ _ [⟨"answer"⟩] rfl⟩

end RagApp

namespace RagApp

set_option maxRecDepth 4096 in
/-- C3: composing with no chunks and no web results yields exactly the fixed
template around an empty context, and the result contains no
"Document Information" or "Web Search Results" section and no `===`
delimiter line. -/
theorem claim_C3_empty_compose :
    create_system_prompt [] [] = promptHeader ++ promptFooter ∧
    ¬ ContainsStr "Document Information" (create_system_prompt [] []) ∧
    ¬ ContainsStr "Web Search Results" (create_system_prompt [] []) ∧
    ¬ ContainsStr "===" (create_system_prompt [] []) := by
  refine ⟨by decide, by decide, by decide, by decide⟩

theorem intercalate_one (s x : String) : String.intercalate s [x] = x := rfl

theorem intercalate_two (s x y : String) : String.intercalate s [x, y] = x ++ s ++ y := rfl

/-- C4: for every non-empty chunk list, the composed prompt contains the
"Document Information" section — the chunks joined by a blank line, verbatim
and in order, wrapped in the `===` delimiters — as a contiguous substring. -/
theorem claim_C4_doc_section (doc_chunks web_results : List String)
    (hne : doc_chunks ≠ []) :
    ContainsStr ("Document Information:\n===\n" ++
        String.intercalate "\n\n" doc_chunks ++ "\n===")
      (create_system_prompt doc_chunks web_results) := by
  have hie : doc_chunks.isEmpty = false := by
    cases doc_chunks with
    | nil => exact absurd rfl hne
    | cons c cs => rfl
  show containsSub (docSection doc_chunks).data
      (create_system_prompt doc_chunks web_results).data = true
  by_cases hw : web_results.isEmpty = true
  · have hd : create_system_prompt doc_chunks web_results =
        promptHeader ++ docSection doc_chunks ++ promptFooter := by
      simp [create_system_prompt, hie, hw, intercalate_one]
    rw [hd, String.data_append, String.data_append, List.append_assoc]
    exact containsSub_sandwich _ _ _
  · have hd : create_system_prompt doc_chunks web_results =
        promptHeader ++ (docSection doc_chunks ++ "\n\n" ++ webSection web_results) ++
          promptFooter := by
      simp [create_system_prompt, hie, hw, intercalate_two]
    rw [hd]
    simp only [String.data_append, List.append_assoc]
    exact containsSub_sandwich _ _ _

/-- C4 witness: the spec's photosynthesis scenario, with web search disabled. -/
theorem claim_C4_doc_section_witness :
    (["Photosynthesis converts light into chemical energy."] : List String) ≠ [] ∧
    ContainsStr ("Document Information:\n===\n" ++
        String.intercalate "\n\n" ["Photosynthesis converts light into chemical energy."] ++
        "\n===")
      (create_system_prompt ["Photosynthesis converts light into chemical energy."] []) :=
  ⟨by decide,
    claim_C4_doc_section ["Photosynthesis converts light into chemical energy."] []
      (by decide)⟩

end RagApp

namespace RagApp

/-- C5: with no web-search credential configured (`None` or the empty
string), `retrieve_web_results` makes zero network calls and returns the
empty sequence, for every query, limit, and would-be backend response —
a configuration branch, not an error. -/
theorem claim_C5_no_credential (serpapi_api_key : Option String) (query : String)
    (num_results : Nat) (resp : WebSearchResponse)
    (h : pyTruthyStr serpapi_api_key = false) :
    retrieve_web_results serpapi_api_key query num_results resp = (Except.ok [], 0) := by
  unfold retrieve_web_results
  rw [h]
  rfl

/-- C5 witness: an absent credential ignores even an ok response full of
results. -/
theorem claim_C5_no_credential_witness :
    pyTruthyStr none = false ∧
    retrieve_web_results none "What is photosynthesis?" 3
        ⟨true, 200, "OK", some [⟨some "Title", some "Snippet"⟩]⟩ = (Except.ok [], 0) :=
  ⟨rfl, claim_C5_no_credential none "What is photosynthesis?" 3 _ rfl⟩

/-- C6: on a successful web-search response, the returned value is the first
`num_results` elements of `organic_results` (empty when the key is absent)
formatted by `formatSerpResult` — bolded title, colon, snippet, with a
missing title or snippet degraded to the empty string — and in particular
never more than `num_results` summaries. -/
theorem claim_C6_truncate_format (serpapi_api_key : Option String) (query : String)
    (num_results : Nat) (resp : WebSearchResponse)
    (hk : pyTruthyStr serpapi_api_key = true) (hok : resp.ok = true) :
    (retrieve_web_results serpapi_api_key query num_results resp).1 =
        Except.ok (((resp.organic_results.getD []).take num_results).map
          formatSerpResult) ∧
    ∀ l, (retrieve_web_results serpapi_api_key query num_results resp).1 =
        Except.ok l → l.length ≤ num_results := by
  have h1 : (retrieve_web_results serpapi_api_key query num_results resp).1 =
      Except.ok (((resp.organic_results.getD []).take num_results).map
        formatSerpResult) := by
    unfold retrieve_web_results
    rw [hk, hok]
    rcases ho : resp.organic_results with _ | rs
    · simp
    · rfl
  refine ⟨h1, fun l hl => ?_⟩
  rw [h1] at hl
  cases hl
  simp [List.length_map, List.length_take]

/-- C6 witness: four backend results (one lacking a snippet, one lacking a
title) truncated to three formatted summaries. -/
theorem claim_C6_truncate_format_witness :
    pyTruthyStr (some "serpkey") = true ∧
    (⟨true, 200, "OK", some [⟨some "T1", some "s1"⟩, ⟨some "T2", none⟩,
        ⟨none, some "s3"⟩, ⟨some "T4", some "s4"⟩]⟩ : WebSearchResponse).ok = true ∧
    (retrieve_web_results (some "serpkey") "q" 3
        ⟨true, 200, "OK", some [⟨some "T1", some "s1"⟩, ⟨some "T2", none⟩,
          ⟨none, some "s3"⟩, ⟨some "T4", some "s4"⟩]⟩).1 =
      Except.ok ["**T1**: s1", "**T2**: ", "****: s3"] ∧
    (["**T1**: s1", "**T2**: ", "****: s3"] : List String).length ≤ 3 :=
  ⟨rfl, rfl, by decide,
    (claim_C6_truncate_format (some "serpkey") "q" 3
        ⟨true, 200, "OK", some [⟨some "T1", some "s1"⟩, ⟨some "T2", none⟩,
          ⟨none, some "s3"⟩, ⟨some "T4", some "s4"⟩]⟩ rfl rfl).2
      ["**T1**: s1", "**T2**: ", "****: s3"] (by decide)⟩

/-- C8: for every successful completion-backend response with at least one
content segment, `generate_response` returns the text of the first segment. -/
theorem claim_C8_first_segment (system_prompt query : String)
    (seg : ContentSegment) (rest : List ContentSegment) :
    generate_response system_prompt query (seg :: rest) = PyValue.str seg.text := rfl

/-- C10: a successful web-search response whose body lacks the
`organic_results` field yields the empty sequence, not an error. -/
theorem claim_C10_missing_organic (serpapi_api_key : Option String) (query : String)
    (num_results : Nat) (resp : WebSearchResponse)
    (hok : resp.ok = true) (hmiss : resp.organic_results = none) :
    (retrieve_web_results serpapi_api_key query num_results resp).1 = Except.ok [] := by
  unfold retrieve_web_results
  cases hk : pyTruthyStr serpapi_api_key
  · rfl
  · rw [hok, hmiss]
    rfl

/-- C10 witness: an ok response with no `organic_results` key. -/
theorem claim_C10_missing_organic_witness :
    (⟨true, 200, "OK", none⟩ : WebSearchResponse).ok = true ∧
    (⟨true, 200, "OK", none⟩ : WebSearchResponse).organic_results = none ∧
    (retrieve_web_results (some "serpkey") "q" 3 ⟨true, 200, "OK", none⟩).1 =
      Except.ok [] :=
  ⟨rfl, rfl, claim_C10_missing_organic (some "serpkey") "q" 3 _ rfl rfl⟩

end RagApp

namespace RagApp

/-- C7 counterexample: for the URL `"https://[x"` — which `urlparse` cannot
parse (mismatched bracket in the authority) — the claim says the fixed
default name `"document"` is submitted, but `upload_document` propagates the
`ValueError` and submits nothing. -/
theorem claim_C7_counterexample :
    specDerivedName "https://[x" = "document" ∧
    upload_document "https://[x" none "fast" =
        Except.error (PipelineError.valueError "Invalid IPv6 URL") ∧
    upload_document "https://[x" none "fast" ≠
        Except.ok ⟨"fast", "document", "https://[x"⟩ := by
  refine ⟨by decide, by decide, by decide⟩

/-- `upload_document` with an absent name on a parseable URL: the
derivation-and-fallback logic produces the payload name. -/
theorem upload_document_none_ok (url mode : String) (pr : ParseResult)
    (hp : urlparse url.data = Except.ok pr) :
    upload_document url none mode =
      Except.ok ⟨mode,
        (if (lastSegment '/' pr.path).isEmpty then "document"
         else String.mk (lastSegment '/' pr.path)), url⟩ := by
  unfold upload_document
  rw [hp]
  rfl

/-- `upload_document` with an absent name on an unparseable URL: the
`ValueError` propagates. -/
theorem upload_document_none_err (url mode : String) (e : String)
    (he : urlparse url.data = Except.error e) :
    upload_document url none mode = Except.error (PipelineError.valueError e) := by
  unfold upload_document
  rw [he]
  rfl

/-- C7 (amended): for every ingestion call with no explicit name whose URL
`urlparse` can parse, the submitted document name is the final path segment
of the URL, with the fixed default `"document"` when that segment is empty —
this agrees with the spec-modelled `specDerivedName` on parseable URLs; when
the URL cannot be parsed the parse error propagates instead of the default
being used (see the counterexample). -/
theorem claim_C7_derived_name (url mode : String) (pr : ParseResult)
    (hp : urlparse url.data = Except.ok pr) :
    upload_document url none mode =
        Except.ok ⟨mode,
          (if (lastSegment '/' pr.path).isEmpty then "document"
           else String.mk (lastSegment '/' pr.path)), url⟩ ∧
    upload_document url none mode = Except.ok ⟨mode, specDerivedName url, url⟩ := by
  refine ⟨upload_document_none_ok url mode pr hp, ?_⟩
  rw [upload_document_none_ok url mode pr hp]
  unfold specDerivedName
  rw [hp]

/-- C7 witness: the spec's `report.pdf` scenario, and the empty-segment
fallback for `"https://example.com/"`. -/
theorem claim_C7_derived_name_witness :
    urlparse "https://example.com/files/report.pdf".data =
        Except.ok ⟨"https".data, "example.com".data, "/files/report.pdf".data,
          [], [], []⟩ ∧
    upload_document "https://example.com/files/report.pdf" none "fast" =
        Except.ok ⟨"fast",
          (if (lastSegment '/' ("/files/report.pdf".data : List Char)).isEmpty
           then "document" else String.mk (lastSegment '/' "/files/report.pdf".data)),
          "https://example.com/files/report.pdf"⟩ ∧
    specDerivedName "https://example.com/files/report.pdf" = "report.pdf" ∧
    specDerivedName "https://example.com/" = "document" :=
  ⟨by decide,
    (claim_C7_derived_name "https://example.com/files/report.pdf" "fast"
        ⟨"https".data, "example.com".data, "/files/report.pdf".data, [], [], []⟩
        (by decide)).1,
    by decide, by decide⟩

/-- C9: an ingestion call whose supplied name is the empty string behaves
exactly as when no name is supplied (Python truthiness treats both as
falsy), and whenever the call succeeds the submitted payload's name is never
the empty string. -/
theorem claim_C9_empty_name (url mode : String) (p : UploadPayload)
    (hp : upload_document url (some "") mode = Except.ok p) :
    upload_document url (some "") mode = upload_document url none mode ∧
    p.name ≠ "" := by
  have heq : upload_document url (some "") mode = upload_document url none mode := rfl
  refine ⟨heq, ?_⟩
  rcases hu : urlparse url.data with e | pr
  · rw [heq, upload_document_none_err url mode e hu] at hp
    cases hp
  · rw [heq, upload_document_none_ok url mode pr hu] at hp
    cases hp
    cases hseg : (lastSegment '/' pr.path).isEmpty
    · simp only [UploadPayload.name, hseg, Bool.false_eq_true, if_false]
      intro habs
      have hnil : lastSegment '/' pr.path = [] := congrArg String.data habs
      rw [hnil] at hseg
      cases hseg
    · simp only [UploadPayload.name, hseg, if_true]
      decide

/-- C9 witness: the empty-string name on the `report.pdf` URL derives the
same non-empty name as an absent name. -/
theorem claim_C9_empty_name_witness :
    upload_document "https://example.com/files/report.pdf" (some "") "fast" =
        Except.ok ⟨"fast", "report.pdf", "https://example.com/files/report.pdf"⟩ ∧
    (upload_document "https://example.com/files/report.pdf" (some "") "fast" =
        upload_document "https://example.com/files/report.pdf" none "fast" ∧
      ("report.pdf" : String) ≠ "") :=
  ⟨by decide,
    claim_C9_empty_name "https://example.com/files/report.pdf" "fast"
      ⟨"fast", "report.pdf", "https://example.com/files/report.pdf"⟩ (by decide)⟩

end RagApp
